import Mathlib

/-!
Shallow embedding of `src/src/esp32/esp32_bt.c` (ESP32 BLE GATT server
multiplexing layer): the service / connection / session registries and the
GATTS/GAP event dispatcher.

Modelling conventions:
* Service handlers (`mgos_bt_gatts_handler_t`) are external code.  A handler
  invocation is recorded as an emitted `Action.callHandler`, and the boolean
  it returns is supplied by an oracle `hr : Nat → Bool` keyed by the
  service's identity (its allocation serial number, standing in for the C
  heap pointer `struct esp32_bt_service_entry *`).
* Outbound stack calls (`esp_ble_gatts_send_response`,
  `esp_ble_gap_start_advertising`, `esp_ble_gatts_start_service`,
  `esp_ble_gatts_create_attr_tab`, `esp_ble_gap_update_conn_params`, ...)
  are recorded as emitted actions; log statements are not modelled.
* The intrusive singly linked lists `s_svcs`, `s_conns` and the per
  connection `sessions` list are Lean lists; `SLIST_INSERT_HEAD` is cons,
  `SLIST_FOREACH` is head-to-tail traversal.
* `uint16_t *attr_handles` is a `List Nat`; the `NULL` pointer of a service
  whose table has not been created is the empty list (the C lookup
  `find_service_by_attr_handle` would dereference `NULL` there; the model
  lets it match nothing).
* The service identity used by `find_service_by_uuid` is the byte string of
  the first descriptor entry's value, whose declared length is compared to
  the event UUID's length before `memcmp`; the model stores that byte
  string as `svc_uuid : List Nat`, so the combined length-and-bytes test is
  list equality.
-/

namespace ESP32BT

/-- Event kinds a service handler can be invoked with (the `ev` argument of
`mgos_bt_gatts_handler_t`). -/
inductive EvKind
  | connect
  | disconnect
  | read
  | write
  | tableReady
deriving DecidableEq

/-- ESP_GATT_OK status code. -/
def ESP_GATT_OK : Nat := 0

/-- ESP_GATT_READ_NOT_PERMIT status code (0x02). -/
def ESP_GATT_READ_NOT_PERMIT : Nat := 2

/-- ESP_GATT_WRITE_NOT_PERMIT status code (0x03). -/
def ESP_GATT_WRITE_NOT_PERMIT : Nat := 3

/-- ESP_GATT_DEF_BLE_MTU_SIZE, the default MTU of a fresh connection. -/
def ESP_GATT_DEF_BLE_MTU_SIZE : Nat := 23

/-- Observable outbound effects of the dispatcher. -/
inductive Action
  | callHandler (svc : Nat) (kind : EvKind) (sessionPresent : Bool)
  | sendResponse (gatt_if conn_id trans_id status : Nat)
  | startAdvertising
  | updateConnParams (addr : List Nat)
  | startService (handle : Nat)
  | createAttrTab (svc : Nat)
  | setDeviceName
  | configAdvData
deriving DecidableEq

/-- Embedding of `struct esp32_bt_service_entry`.  `id` stands for the heap
identity of the entry (used for pointer comparison `sse->se == se` and as
the oracle key for `cb`); `svc_uuid` is the value bytes of
`svc_descr[0].att_desc` (the service declaration). -/
structure esp32_bt_service_entry where
  id : Nat
  svc_uuid : List Nat
  num_attrs : Nat
  registered : Bool
  attr_handles : List Nat
deriving DecidableEq

/-- Embedding of `struct esp32_bt_session_entry`: the non-owning
back-reference `se` to the bound service (by identity).  The back-reference
`bs.bc` to the owning connection is represented by ownership: the session
lives in its connection's `sessions` list. -/
structure esp32_bt_session_entry where
  se : Nat
deriving DecidableEq

/-- Embedding of `struct esp32_bt_connection_entry` (with the inner
`struct esp32_bt_connection bc` flattened). -/
structure esp32_bt_connection_entry where
  gatt_if : Nat
  conn_id : Nat
  mtu : Nat
  peer_addr : List Nat
  sessions : List esp32_bt_session_entry
deriving DecidableEq

/-- The global mutable state of `esp32_bt.c`: `s_svcs`, `s_conns`,
`s_gatts_registered`, `s_gatts_if`, plus the externally togglable config
flag `get_cfg()->bt.adv_enable` and the allocation serial counter giving
fresh service identities. -/
structure State where
  s_svcs : List esp32_bt_service_entry
  s_conns : List esp32_bt_connection_entry
  s_gatts_registered : Bool
  s_gatts_if : Nat
  adv_enable : Bool
  next_id : Nat
deriving DecidableEq

/-- The initial state: empty registries, stack not yet registered. -/
def initState : State :=
  { s_svcs := []
    s_conns := []
    s_gatts_registered := false
    s_gatts_if := 0
    adv_enable := false
    next_id := 0 }

/-- GATTS events (the cases of `esp32_bt_gatts_ev` the registries react to;
`otherEvt` collects the log-only cases: EXEC_WRITE, CONF, UNREG, CREATE,
ADD_INCL_SRVC, ADD_CHAR, ADD_CHAR_DESCR, DELETE, START, STOP, OPEN,
CANCEL_OPEN, CLOSE, LISTEN, CONGEST, RESPONSE, SET_ATTR_VAL). -/
inductive GattsEv
  | regEvt (gatt_if : Nat)
  | readEvt (gatt_if conn_id trans_id handle : Nat) (need_rsp : Bool)
  | writeEvt (gatt_if conn_id trans_id handle : Nat) (need_rsp : Bool)
  | mtuEvt (gatt_if conn_id mtu : Nat)
  | connectEvt (gatt_if conn_id : Nat) (addr : List Nat) (is_connected : Bool)
  | disconnectEvt (gatt_if conn_id : Nat)
  | creatAttrTabEvt (status : Nat) (svc_uuid : List Nat) (handles : List Nat)
  | otherEvt
deriving DecidableEq

/-- GAP events (`esp32_bt_gap_ev`): the data-set-complete and stop-complete
cases; `otherGapEv` collects the remaining log-only cases. -/
inductive GapEv
  | advDataSetComplete
  | advStopComplete
  | otherGapEv
deriving DecidableEq

/-- Embedding of `find_connection`: first entry of `s_conns` matching the
(gatt_if, conn_id) identity pair. -/
def find_connection (conns : List esp32_bt_connection_entry)
    (gatt_if conn_id : Nat) : Option esp32_bt_connection_entry :=
  conns.find? (fun ce => ce.gatt_if == gatt_if && ce.conn_id == conn_id)

/-- Embedding of `find_service_by_uuid`: first service whose declaration
value (length and bytes) equals the event UUID. -/
def find_service_by_uuid (svcs : List esp32_bt_service_entry)
    (uuid : List Nat) : Option esp32_bt_service_entry :=
  svcs.find? (fun se => se.svc_uuid == uuid)

/-- Embedding of `find_service_by_attr_handle`: first service whose resolved
handle array contains the handle. -/
def find_service_by_attr_handle (svcs : List esp32_bt_service_entry)
    (handle : Nat) : Option esp32_bt_service_entry :=
  svcs.find? (fun se => se.attr_handles.contains handle)

/-- Embedding of `esp32_bt_register_services`'s loop body: walks `s_svcs`
head to tail, and for each not-yet-registered entry issues a
`create_attr_tab` call and sets its `registered` flag. -/
def register_services_loop (svcs : List esp32_bt_service_entry) :
    List esp32_bt_service_entry × List Action :=
  match svcs with
  | [] => ([], [])
  | se :: rest =>
    let r := register_services_loop rest
    if se.registered then (se :: r.1, r.2)
    else ({ se with registered := true } :: r.1, .createAttrTab se.id :: r.2)

/-- Embedding of `esp32_bt_register_services`: a no-op unless
`s_gatts_registered`. -/
def esp32_bt_register_services (s : State) : State × List Action :=
  if s.s_gatts_registered then
    let r := register_services_loop s.s_svcs
    ({ s with s_svcs := r.1 }, r.2)
  else (s, [])

/-- Embedding of `mgos_bt_gatts_register_service` (with a non-NULL `cb`,
whose identity is the fresh serial number): head-inserts an unregistered
entry with no resolved handles, then runs `esp32_bt_register_services`. -/
def mgos_bt_gatts_register_service (s : State) (svc_uuid : List Nat)
    (num_attrs : Nat) : State × List Action :=
  let se : esp32_bt_service_entry :=
    { id := s.next_id
      svc_uuid := svc_uuid
      num_attrs := num_attrs
      registered := false
      attr_handles := [] }
  esp32_bt_register_services
    { s with s_svcs := se :: s.s_svcs, next_id := s.next_id + 1 }

/-- The session-creation loop of the CONNECT case: for each service, insert
a fresh session at the head of the accumulating session list and invoke its
handler with the connect event (return value ignored). -/
def create_sessions (svcs : List esp32_bt_service_entry)
    (acc : List esp32_bt_session_entry) :
    List esp32_bt_session_entry × List Action :=
  match svcs with
  | [] => (acc, [])
  | se :: rest =>
    let r := create_sessions rest ({ se := se.id } :: acc)
    (r.1, .callHandler se.id .connect true :: r.2)

/-- The session loop of the READ/WRITE cases: walks the connection's
sessions, and on each one bound to the looked-up service invokes the
handler, the last return value winning. -/
def session_loop (hr : Nat → Bool) (sid : Nat) (kind : EvKind) :
    List esp32_bt_session_entry → Bool → Bool × List Action
  | [], ret => (ret, [])
  | sse :: rest, ret =>
    if sse.se == sid then
      let r := session_loop hr sid kind rest (hr sid)
      (r.1, .callHandler sid kind true :: r.2)
    else session_loop hr sid kind rest ret

/-- The shared lookup-and-dispatch of the READ/WRITE cases: find the
connection, find the owning service, run the session loop (starting from
`ret = false`).  If the connection is found but the service is not, the
loop compares each session's service pointer against `NULL` and matches
nothing. -/
def dispatch_rw (s : State) (hr : Nat → Bool) (gatt_if conn_id handle : Nat)
    (kind : EvKind) : Bool × List Action :=
  match find_connection s.s_conns gatt_if conn_id with
  | none => (false, [])
  | some ce =>
    match find_service_by_attr_handle s.s_svcs handle with
    | none => (false, [])
    | some se => session_loop hr se.id kind ce.sessions false

/-- Removal of the found connection entry (`SLIST_REMOVE`): drops the first
entry matching the identity pair. -/
def remove_connection (conns : List esp32_bt_connection_entry)
    (gatt_if conn_id : Nat) : List esp32_bt_connection_entry :=
  match conns with
  | [] => []
  | ce :: rest =>
    if ce.gatt_if == gatt_if && ce.conn_id == conn_id then rest
    else ce :: remove_connection rest gatt_if conn_id

/-- In-place MTU update of the found connection entry (MTU case). -/
def update_mtu (conns : List esp32_bt_connection_entry)
    (gatt_if conn_id mtu : Nat) : List esp32_bt_connection_entry :=
  match conns with
  | [] => []
  | ce :: rest =>
    if ce.gatt_if == gatt_if && ce.conn_id == conn_id then
      { ce with mtu := mtu } :: rest
    else ce :: update_mtu rest gatt_if conn_id mtu

/-- Overwrite of the found service's `attr_handles` by the event's handle
array (the CREAT_ATTR_TAB case's calloc+memcpy): updates the first entry
matching the UUID, leaving every other entry untouched. -/
def set_attr_handles (svcs : List esp32_bt_service_entry)
    (uuid : List Nat) (handles : List Nat) : List esp32_bt_service_entry :=
  match svcs with
  | [] => []
  | se :: rest =>
    if se.svc_uuid == uuid then { se with attr_handles := handles } :: rest
    else se :: set_attr_handles rest uuid handles

/-- Embedding of `esp32_bt_gatts_ev`: one dispatcher step on one GATTS
event, returning the new state and the emitted outbound actions in program
order. -/
def esp32_bt_gatts_ev (s : State) (hr : Nat → Bool) :
    GattsEv → State × List Action
  | .regEvt gatt_if =>
    let s1 := { s with s_gatts_if := gatt_if, s_gatts_registered := true }
    let r := esp32_bt_register_services s1
    (r.1, .setDeviceName :: .configAdvData :: r.2)
  | .readEvt gatt_if conn_id trans_id handle need_rsp =>
    if !need_rsp then (s, [])
    else
      let r := dispatch_rw s hr gatt_if conn_id handle .read
      if !r.1 then
        (s, r.2 ++ [.sendResponse gatt_if conn_id trans_id
                      ESP_GATT_READ_NOT_PERMIT])
      else (s, r.2)
  | .writeEvt gatt_if conn_id trans_id handle need_rsp =>
    if !need_rsp then (s, [])
    else
      let r := dispatch_rw s hr gatt_if conn_id handle .write
      (s, r.2 ++ [.sendResponse gatt_if conn_id trans_id
                    (if r.1 then ESP_GATT_OK else ESP_GATT_WRITE_NOT_PERMIT)])
  | .mtuEvt gatt_if conn_id mtu =>
    ({ s with s_conns := update_mtu s.s_conns gatt_if conn_id mtu }, [])
  | .connectEvt gatt_if conn_id addr is_connected =>
    if !is_connected then (s, [])
    else
      let advA : List Action :=
        if s.adv_enable then [.startAdvertising] else []
      let r := create_sessions s.s_svcs []
      let ce : esp32_bt_connection_entry :=
        { gatt_if := gatt_if
          conn_id := conn_id
          mtu := ESP_GATT_DEF_BLE_MTU_SIZE
          peer_addr := addr
          sessions := r.1 }
      ({ s with s_conns := ce :: s.s_conns },
       .updateConnParams addr :: advA ++ r.2)
  | .disconnectEvt gatt_if conn_id =>
    let advA : List Action :=
      if s.adv_enable then [.startAdvertising] else []
    match find_connection s.s_conns gatt_if conn_id with
    | none => (s, advA)
    | some ce =>
      let calls := ce.sessions.map
        (fun sse => Action.callHandler sse.se .disconnect true)
      ({ s with s_conns := remove_connection s.s_conns gatt_if conn_id },
       calls ++ advA)
  | .creatAttrTabEvt status uuid handles =>
    if status != 0 then (s, [])
    else
      match find_service_by_uuid s.s_svcs uuid with
      | none => (s, [])
      | some se =>
        if se.num_attrs != handles.length then (s, [])
        else
          ({ s with s_svcs := set_attr_handles s.s_svcs uuid handles },
           [.callHandler se.id .tableReady false,
            .startService (handles.headD 0)])
  | .otherEvt => (s, [])

/-- Embedding of `esp32_bt_gap_ev`: ADV_DATA_SET_COMPLETE starts
advertising unconditionally; ADV_STOP_COMPLETE (like every other GAP case)
only logs. -/
def esp32_bt_gap_ev (s : State) : GapEv → State × List Action
  | .advDataSetComplete => (s, [.startAdvertising])
  | .advStopComplete => (s, [])
  | .otherGapEv => (s, [])

/-- Predicate picking out handler invocations among emitted actions. -/
def isHandlerCall : Action → Bool
  | .callHandler _ _ _ => true
  | _ => false

/-- Predicate picking out `send_response` calls among emitted actions. -/
def isResponse : Action → Bool
  | .sendResponse _ _ _ _ => true
  | _ => false

/-- The handler invocations among a list of emitted actions. -/
def handlerCalls (as : List Action) : List Action := as.filter isHandlerCall

/-- The `send_response` calls among a list of emitted actions. -/
def responses (as : List Action) : List Action := as.filter isResponse

/-- The routing outcome of a read/write lookup: the identity of the service
whose session will receive the event, when the connection, the owning
service and a session bound to that service all exist. -/
def rwTarget (s : State) (gatt_if conn_id handle : Nat) : Option Nat :=
  match find_connection s.s_conns gatt_if conn_id with
  | none => none
  | some ce =>
    match find_service_by_attr_handle s.s_svcs handle with
    | none => none
    | some se =>
      if ce.sessions.any (fun sse => sse.se == se.id) then some se.id
      else none

/-- States reachable from startup through any serialized sequence of
GATTS events, GAP events, service-registering API calls and external
toggles of the advertising config flag. -/
inductive Reachable : State → Prop
  | init : Reachable initState
  | gatts : ∀ {s : State}, Reachable s → ∀ (hr : Nat → Bool) (ev : GattsEv),
      Reachable (esp32_bt_gatts_ev s hr ev).1
  | gap : ∀ {s : State}, Reachable s → ∀ (ev : GapEv),
      Reachable (esp32_bt_gap_ev s ev).1
  | reg : ∀ {s : State}, Reachable s → ∀ (svc_uuid : List Nat) (num_attrs : Nat),
      Reachable (mgos_bt_gatts_register_service s svc_uuid num_attrs).1
  | setAdv : ∀ {s : State}, Reachable s → ∀ (b : Bool),
      Reachable { s with adv_enable := b }

/-- Handler oracle that accepts every event. -/
def hrT : Nat → Bool := fun _ => true

/-- Handler oracle that rejects every event. -/
def hrF : Nat → Bool := fun _ => false

/-- Concrete trace state: one service (2 attributes) registered before the
stack is ready. -/
def regState : State := (mgos_bt_gatts_register_service initState [18] 2).1

/-- Concrete trace state: the stack then reports registration complete, so
the service's table creation has been requested (`registered = true`) but
no table-created event has arrived yet. -/
def readyState : State := (esp32_bt_gatts_ev regState hrT (.regEvt 1)).1

/-- Concrete trace state: the matching table-created event has arrived and
the service has been started. -/
def startedState : State :=
  (esp32_bt_gatts_ev readyState hrT (.creatAttrTabEvt 0 [18] [10, 11])).1

/-- Concrete trace state: a peer has then connected. -/
def connState : State :=
  (esp32_bt_gatts_ev startedState hrT (.connectEvt 1 7 [1, 2, 3, 4, 5, 6] true)).1

/-- Concrete state with two registered services, for the connect witness. -/
def twoSvcState : State :=
  (mgos_bt_gatts_register_service
    (mgos_bt_gatts_register_service initState [18] 2).1 [34] 1).1

/-- Concrete state whose advertising enable flag is set. -/
def advOnState : State := { initState with adv_enable := true }

/-- The service entry of `readyState`: table requested, handles not yet
resolved. -/
def svcAfterReg : esp32_bt_service_entry :=
  { id := 0, svc_uuid := [18], num_attrs := 2, registered := true,
    attr_handles := [] }

/-- The connection entry of `connState`. -/
def connEntry : esp32_bt_connection_entry :=
  { gatt_if := 1, conn_id := 7, mtu := 23, peer_addr := [1, 2, 3, 4, 5, 6],
    sessions := [{ se := 0 }] }

/-- Closed form of the session loop: the final handler result is the
oracle's answer when some session is bound to the service, the threaded-in
default otherwise, and one handler call is emitted per bound session. -/
theorem session_loop_eq (hr : Nat → Bool) (sid : Nat) (kind : EvKind)
    (l : List esp32_bt_session_entry) (ret : Bool) :
    session_loop hr sid kind l ret =
      ((if l.any (fun sse => sse.se == sid) then hr sid else ret),
       (l.filter (fun sse => sse.se == sid)).map
         (fun _ => Action.callHandler sid kind true)) := by
  induction l generalizing ret with
  | nil => simp [session_loop]
  | cons sse rest ih =>
    by_cases h : sse.se == sid
    · simp [session_loop, h, ih]
    · simp [session_loop, h, ih]

/-- Closed form of the session-creation loop: head insertion reverses the
service order in the session list, and one connect notification is emitted
per service in registration-list order. -/
theorem create_sessions_eq (svcs : List esp32_bt_service_entry)
    (acc : List esp32_bt_session_entry) :
    create_sessions svcs acc =
      ((svcs.map (fun se => ({ se := se.id } : esp32_bt_session_entry))).reverse
         ++ acc,
       svcs.map (fun se => Action.callHandler se.id .connect true)) := by
  induction svcs generalizing acc with
  | nil => simp [create_sessions]
  | cons se rest ih => simp [create_sessions, ih]

/-- Every action emitted by the read/write lookup-and-dispatch is a handler
invocation with the looked-up kind and a present session. -/
theorem dispatch_rw_snd_calls (s : State) (hr : Nat → Bool)
    (gatt_if conn_id handle : Nat) (kind : EvKind) :
    ∀ a ∈ (dispatch_rw s hr gatt_if conn_id handle kind).2,
      ∃ sid, a = Action.callHandler sid kind true := by
  unfold dispatch_rw
  cases hce : find_connection s.s_conns gatt_if conn_id with
  | none => simp
  | some ce =>
    cases hse : find_service_by_attr_handle s.s_svcs handle with
    | none => simp
    | some se =>
      dsimp only
      rw [session_loop_eq]
      intro a ha
      simp only [List.mem_map] at ha
      obtain ⟨x, _, rfl⟩ := ha
      exact ⟨se.id, rfl⟩

/-- The lookup-and-dispatch emits no `send_response` call of its own. -/
theorem responses_dispatch_rw (s : State) (hr : Nat → Bool)
    (gatt_if conn_id handle : Nat) (kind : EvKind) :
    responses (dispatch_rw s hr gatt_if conn_id handle kind).2 = [] := by
  rw [responses, List.filter_eq_nil_iff]
  intro a ha
  obtain ⟨sid, rfl⟩ := dispatch_rw_snd_calls s hr gatt_if conn_id handle kind a ha
  simp [isResponse]

/-- Every action emitted by the lookup-and-dispatch counts as a handler
call. -/
theorem handlerCalls_dispatch_rw (s : State) (hr : Nat → Bool)
    (gatt_if conn_id handle : Nat) (kind : EvKind) :
    handlerCalls (dispatch_rw s hr gatt_if conn_id handle kind).2 =
      (dispatch_rw s hr gatt_if conn_id handle kind).2 := by
  rw [handlerCalls, List.filter_eq_self]
  intro a ha
  obtain ⟨sid, rfl⟩ := dispatch_rw_snd_calls s hr gatt_if conn_id handle kind a ha
  simp [isHandlerCall]

/-- The handler result captured by the lookup-and-dispatch is the oracle's
answer for the routing target, and `false` on any lookup miss. -/
theorem dispatch_rw_fst (s : State) (hr : Nat → Bool)
    (gatt_if conn_id handle : Nat) (kind : EvKind) :
    (dispatch_rw s hr gatt_if conn_id handle kind).1 =
      match rwTarget s gatt_if conn_id handle with
      | some sid => hr sid
      | none => false := by
  unfold dispatch_rw rwTarget
  cases hce : find_connection s.s_conns gatt_if conn_id with
  | none => simp
  | some ce =>
    cases hse : find_service_by_attr_handle s.s_svcs handle with
    | none => simp
    | some se =>
      dsimp only
      rw [session_loop_eq]
      by_cases h : ce.sessions.any (fun sse => sse.se == se.id)
      · simp [h]
      · simp [h]

/-- On a routing miss the lookup-and-dispatch emits nothing at all. -/
theorem dispatch_rw_snd_none (s : State) (hr : Nat → Bool)
    (gatt_if conn_id handle : Nat) (kind : EvKind)
    (hT : rwTarget s gatt_if conn_id handle = none) :
    (dispatch_rw s hr gatt_if conn_id handle kind).2 = [] := by
  unfold rwTarget at hT
  unfold dispatch_rw
  cases hce : find_connection s.s_conns gatt_if conn_id with
  | none => simp
  | some ce =>
    rw [hce] at hT
    cases hse : find_service_by_attr_handle s.s_svcs handle with
    | none => simp
    | some se =>
      rw [hse] at hT
      dsimp only at hT ⊢
      rw [session_loop_eq]
      by_cases h : ce.sessions.any (fun sse => sse.se == se.id)
      · simp [h] at hT
      · simp only []
        have : ce.sessions.filter (fun sse => sse.se == se.id) = [] := by
          rw [List.filter_eq_nil_iff]
          intro a ha hx
          exact (List.any_eq_false.mp (Bool.eq_false_iff.mpr h) a ha
            : ¬ (a.se == se.id)) hx
        simp [this]

/-- On a routing hit the lookup-and-dispatch emits at least one handler
call. -/
theorem dispatch_rw_snd_hit (s : State) (hr : Nat → Bool)
    (gatt_if conn_id handle : Nat) (kind : EvKind) (sid : Nat)
    (hT : rwTarget s gatt_if conn_id handle = some sid) :
    (dispatch_rw s hr gatt_if conn_id handle kind).2 ≠ [] := by
  unfold rwTarget at hT
  unfold dispatch_rw
  cases hce : find_connection s.s_conns gatt_if conn_id with
  | none => rw [hce] at hT; simp at hT
  | some ce =>
    rw [hce] at hT
    cases hse : find_service_by_attr_handle s.s_svcs handle with
    | none => rw [hse] at hT; simp at hT
    | some se =>
      rw [hse] at hT
      dsimp only at hT ⊢
      rw [session_loop_eq]
      by_cases h : ce.sessions.any (fun sse => sse.se == se.id)
      · obtain ⟨a, ha, hpa⟩ := List.any_eq_true.mp h
        intro hcon
        simp only [] at hcon
        have : a ∈ ce.sessions.filter (fun sse => sse.se == se.id) :=
          List.mem_filter.mpr ⟨ha, hpa⟩
        rw [List.map_eq_nil_iff] at hcon
        rw [hcon] at this
        exact List.not_mem_nil a this
      · simp [h] at hT

/-- C10: a CONNECT event whose payload reports the peer as not connected is
ignored entirely: no state change (no Connection or Session created, all
registries untouched) and no emitted action (no handler call, no
connection-parameter update, no advertising restart). -/
theorem connect_ignored_when_not_connected (s : State) (hr : Nat → Bool)
    (gatt_if conn_id : Nat) (addr : List Nat) :
    esp32_bt_gatts_ev s hr (.connectEvt gatt_if conn_id addr false) = (s, []) := by
  simp [esp32_bt_gatts_ev]

/-- C9 (amended): after every disconnect event an advertising start call is
issued iff the enable flag evaluates to true in the state at that moment
(the flag is re-read from the state on each event, so toggling it between
events takes effect); the stack-reported advertising-stop event, however,
is log-only: it never issues an advertising start, whatever the flag. -/
theorem adv_restart_on_disconnect_only (s : State) (hr : Nat → Bool)
    (gatt_if conn_id : Nat) :
    (Action.startAdvertising ∈
        (esp32_bt_gatts_ev s hr (.disconnectEvt gatt_if conn_id)).2
      ↔ s.adv_enable = true) ∧
    esp32_bt_gap_ev s .advStopComplete = (s, []) := by
  refine ⟨?_, rfl⟩
  simp only [esp32_bt_gatts_ev]
  cases hce : find_connection s.s_conns gatt_if conn_id with
  | none =>
    dsimp only
    by_cases h : s.adv_enable <;> simp [h]
  | some ce =>
    dsimp only
    by_cases h : s.adv_enable <;>
      simp [h, List.mem_append, List.mem_map]

/-- C9 counterexample: in a reachable state whose advertising enable flag
is true, the stack-reported advertising-stop event issues no advertising
start call at all, refuting the claim that a start call follows every
advertising-stop event whenever the flag is true. -/
theorem adv_stop_event_is_ignored :
    Reachable advOnState ∧ advOnState.adv_enable = true ∧
    (esp32_bt_gap_ev advOnState .advStopComplete).2 = [] :=
  ⟨Reachable.setAdv Reachable.init true, rfl, rfl⟩

/-- C5: a disconnect event whose identity pair matches no live connection
changes nothing (the whole state, hence all three registries, is returned
untouched) and invokes no handler and sends no response — duplicate
disconnect delivery is a no-op. -/
theorem disconnect_unmatched_noop (s : State) (hr : Nat → Bool)
    (gatt_if conn_id : Nat)
    (hfind : find_connection s.s_conns gatt_if conn_id = none) :
    (esp32_bt_gatts_ev s hr (.disconnectEvt gatt_if conn_id)).1 = s ∧
    handlerCalls (esp32_bt_gatts_ev s hr (.disconnectEvt gatt_if conn_id)).2
      = [] ∧
    responses (esp32_bt_gatts_ev s hr (.disconnectEvt gatt_if conn_id)).2
      = [] := by
  simp only [esp32_bt_gatts_ev, hfind]
  by_cases h : s.adv_enable <;>
    simp [h, handlerCalls, responses, isHandlerCall, isResponse]

/-- C5 witness: in the initial state (no live connection) a disconnect
event is a no-op. -/
theorem disconnect_unmatched_noop_witness :
    (esp32_bt_gatts_ev initState hrT (.disconnectEvt 1 7)).1 = initState ∧
    handlerCalls (esp32_bt_gatts_ev initState hrT (.disconnectEvt 1 7)).2
      = [] ∧
    responses (esp32_bt_gatts_ev initState hrT (.disconnectEvt 1 7)).2
      = [] :=
  disconnect_unmatched_noop initState hrT 1 7 (by decide)

/-- Specialization of the handler result on a routing miss. -/
theorem dispatch_rw_fst_miss (s : State) (hr : Nat → Bool)
    (gatt_if conn_id handle : Nat) (kind : EvKind)
    (hT : rwTarget s gatt_if conn_id handle = none) :
    (dispatch_rw s hr gatt_if conn_id handle kind).1 = false := by
  have h := dispatch_rw_fst s hr gatt_if conn_id handle kind
  rw [hT] at h
  exact h

/-- Specialization of the handler result on a routing hit. -/
theorem dispatch_rw_fst_hit (s : State) (hr : Nat → Bool)
    (gatt_if conn_id handle : Nat) (kind : EvKind) (sid : Nat)
    (hT : rwTarget s gatt_if conn_id handle = some sid) :
    (dispatch_rw s hr gatt_if conn_id handle kind).1 = hr sid := by
  have h := dispatch_rw_fst s hr gatt_if conn_id handle kind
  rw [hT] at h
  exact h

/-- C2: for a read event that requires a response, the dispatcher leaves
the state unchanged and: when connection, owning service and bound session
all exist (a routing hit on target sid), the session handler is invoked and
no default reply is sent if it returns true, while exactly one "read not
permitted" reply is sent if it returns false; on any routing miss the whole
emitted output is exactly one "read not permitted" reply — in particular no
handler is invoked. -/
theorem read_default_reply (s : State) (hr : Nat → Bool)
    (gatt_if conn_id trans_id handle : Nat) :
    (esp32_bt_gatts_ev s hr (.readEvt gatt_if conn_id trans_id handle true)).1
      = s ∧
    (match rwTarget s gatt_if conn_id handle with
     | some sid =>
         responses
             (esp32_bt_gatts_ev s hr
               (.readEvt gatt_if conn_id trans_id handle true)).2
           = (if hr sid then []
              else [Action.sendResponse gatt_if conn_id trans_id
                      ESP_GATT_READ_NOT_PERMIT]) ∧
         handlerCalls
             (esp32_bt_gatts_ev s hr
               (.readEvt gatt_if conn_id trans_id handle true)).2 ≠ []
     | none =>
         (esp32_bt_gatts_ev s hr
             (.readEvt gatt_if conn_id trans_id handle true)).2
           = [Action.sendResponse gatt_if conn_id trans_id
                ESP_GATT_READ_NOT_PERMIT]) := by
  cases hT : rwTarget s gatt_if conn_id handle with
  | none =>
    have hfst0 := dispatch_rw_fst_miss s hr gatt_if conn_id handle .read hT
    have hsnd := dispatch_rw_snd_none s hr gatt_if conn_id handle .read hT
    exact ⟨by simp [esp32_bt_gatts_ev, hfst0],
           by simp [esp32_bt_gatts_ev, hfst0, hsnd]⟩
  | some sid =>
    have hfst0 := dispatch_rw_fst_hit s hr gatt_if conn_id handle .read sid hT
    have hne := dispatch_rw_snd_hit s hr gatt_if conn_id handle .read sid hT
    have hrsp0 : List.filter isResponse
        (dispatch_rw s hr gatt_if conn_id handle .read).2 = [] :=
      responses_dispatch_rw s hr gatt_if conn_id handle .read
    have hhc0 : List.filter isHandlerCall
        (dispatch_rw s hr gatt_if conn_id handle .read).2 =
        (dispatch_rw s hr gatt_if conn_id handle .read).2 :=
      handlerCalls_dispatch_rw s hr gatt_if conn_id handle .read
    cases hret : hr sid with
    | true =>
      refine ⟨by simp [esp32_bt_gatts_ev, hfst0, hret], ?_, ?_⟩
      · simp only [esp32_bt_gatts_ev, hfst0, hret, responses]
        simp [hrsp0]
      · simp only [esp32_bt_gatts_ev, hfst0, hret, handlerCalls]
        simp [hhc0]
        simpa using hne
    | false =>
      refine ⟨by simp [esp32_bt_gatts_ev, hfst0, hret], ?_, ?_⟩
      · simp only [esp32_bt_gatts_ev, hfst0, hret, responses]
        simp [List.filter_append, hrsp0, isResponse]
      · simp only [esp32_bt_gatts_ev, hfst0, hret, handlerCalls]
        simp [List.filter_append, hhc0, isHandlerCall]
        simpa using hne

/-- C3: a write event that does not require a response triggers no action
at all; a write event that requires one leaves the state unchanged and the
dispatcher sends exactly one reply — "ok" when the bound session's handler
was invoked and returned true, "write not permitted" when it returned
false, and, on any routing miss, "write not permitted" with the whole
output being that single reply (no handler invoked). -/
theorem write_always_replies (s : State) (hr : Nat → Bool)
    (gatt_if conn_id trans_id handle : Nat) :
    esp32_bt_gatts_ev s hr (.writeEvt gatt_if conn_id trans_id handle false)
      = (s, []) ∧
    (esp32_bt_gatts_ev s hr (.writeEvt gatt_if conn_id trans_id handle true)).1
      = s ∧
    (match rwTarget s gatt_if conn_id handle with
     | some sid =>
         responses
             (esp32_bt_gatts_ev s hr
               (.writeEvt gatt_if conn_id trans_id handle true)).2
           = [Action.sendResponse gatt_if conn_id trans_id
                (if hr sid then ESP_GATT_OK else ESP_GATT_WRITE_NOT_PERMIT)] ∧
         handlerCalls
             (esp32_bt_gatts_ev s hr
               (.writeEvt gatt_if conn_id trans_id handle true)).2 ≠ []
     | none =>
         (esp32_bt_gatts_ev s hr
             (.writeEvt gatt_if conn_id trans_id handle true)).2
           = [Action.sendResponse gatt_if conn_id trans_id
                ESP_GATT_WRITE_NOT_PERMIT]) := by
  cases hT : rwTarget s gatt_if conn_id handle with
  | none =>
    have hfst0 := dispatch_rw_fst_miss s hr gatt_if conn_id handle .write hT
    have hsnd := dispatch_rw_snd_none s hr gatt_if conn_id handle .write hT
    exact ⟨by simp [esp32_bt_gatts_ev], by simp [esp32_bt_gatts_ev],
           by simp [esp32_bt_gatts_ev, hfst0, hsnd]⟩
  | some sid =>
    have hfst0 := dispatch_rw_fst_hit s hr gatt_if conn_id handle .write sid hT
    have hne := dispatch_rw_snd_hit s hr gatt_if conn_id handle .write sid hT
    have hrsp0 : List.filter isResponse
        (dispatch_rw s hr gatt_if conn_id handle .write).2 = [] :=
      responses_dispatch_rw s hr gatt_if conn_id handle .write
    have hhc0 : List.filter isHandlerCall
        (dispatch_rw s hr gatt_if conn_id handle .write).2 =
        (dispatch_rw s hr gatt_if conn_id handle .write).2 :=
      handlerCalls_dispatch_rw s hr gatt_if conn_id handle .write
    refine ⟨by simp [esp32_bt_gatts_ev], by simp [esp32_bt_gatts_ev], ?_, ?_⟩
    · simp only [esp32_bt_gatts_ev, hfst0, responses]
      simp [List.filter_append, hrsp0, isResponse]
    · simp only [esp32_bt_gatts_ev, hfst0, handlerCalls]
      simp [List.filter_append, hhc0, isHandlerCall]
      simpa using hne

/-- Filtering handler calls out of a mapped list of disconnect
notifications keeps every element. -/
theorem filter_isHandlerCall_map_disc (l : List esp32_bt_session_entry) :
    List.filter isHandlerCall
        (l.map (fun sse => Action.callHandler sse.se .disconnect true))
      = l.map (fun sse => Action.callHandler sse.se .disconnect true) := by
  rw [List.filter_eq_self]
  intro a ha
  obtain ⟨x, _, rfl⟩ := List.mem_map.mp ha
  rfl

/-- Mapped disconnect notifications contain no `send_response` call. -/
theorem filter_isResponse_map_disc (l : List esp32_bt_session_entry) :
    List.filter isResponse
        (l.map (fun sse => Action.callHandler sse.se .disconnect true))
      = [] := by
  rw [List.filter_eq_nil_iff]
  intro a ha
  obtain ⟨x, _, rfl⟩ := List.mem_map.mp ha
  simp [isResponse]

/-- Removing the found connection entry removes the identity pair entirely
when the registry held exactly one entry with that identity. -/
theorem find_connection_remove (l : List esp32_bt_connection_entry)
    (gatt_if conn_id : Nat)
    (h1 : l.countP (fun ce => ce.gatt_if == gatt_if && ce.conn_id == conn_id)
        = 1) :
    find_connection (remove_connection l gatt_if conn_id) gatt_if conn_id
      = none := by
  induction l with
  | nil => simp [remove_connection, find_connection]
  | cons ce rest ih =>
    rw [List.countP_cons] at h1
    by_cases hm : (ce.gatt_if == gatt_if && ce.conn_id == conn_id) = true
    · rw [if_pos hm] at h1
      have h0 : rest.countP
          (fun c => c.gatt_if == gatt_if && c.conn_id == conn_id) = 0 := by
        omega
      simp only [remove_connection, if_pos hm]
      rw [find_connection, List.find?_eq_none]
      intro a ha
      exact List.countP_eq_zero.mp h0 a ha
    · rw [if_neg hm] at h1
      simp only [remove_connection, if_neg hm]
      rw [find_connection,
          List.find?_cons_of_neg (remove_connection rest gatt_if conn_id) hm]
      exact ih (by omega)

/-- C4: a disconnect event matching a live connection delivers exactly one
disconnect notification to each of the connection's sessions' handlers (in
session-list order, before anything is freed), destroys all of them with
the connection (the connection registry afterwards is the old one with the
found entry removed, so no session referencing the connection remains),
leaves the service registry untouched, and sends no response; when the
identity pair was unique the pair no longer resolves afterwards. -/
theorem disconnect_teardown (s : State) (hr : Nat → Bool)
    (gatt_if conn_id : Nat) (ce : esp32_bt_connection_entry)
    (hfind : find_connection s.s_conns gatt_if conn_id = some ce)
    (huniq : s.s_conns.countP
        (fun c => c.gatt_if == gatt_if && c.conn_id == conn_id) = 1) :
    (esp32_bt_gatts_ev s hr (.disconnectEvt gatt_if conn_id)).1.s_svcs
      = s.s_svcs ∧
    (esp32_bt_gatts_ev s hr (.disconnectEvt gatt_if conn_id)).1.s_conns
      = remove_connection s.s_conns gatt_if conn_id ∧
    handlerCalls (esp32_bt_gatts_ev s hr (.disconnectEvt gatt_if conn_id)).2
      = ce.sessions.map (fun sse => Action.callHandler sse.se .disconnect true) ∧
    responses (esp32_bt_gatts_ev s hr (.disconnectEvt gatt_if conn_id)).2
      = [] ∧
    find_connection
        (esp32_bt_gatts_ev s hr (.disconnectEvt gatt_if conn_id)).1.s_conns
        gatt_if conn_id
      = none := by
  have hrm := find_connection_remove s.s_conns gatt_if conn_id huniq
  by_cases hadv : s.adv_enable
  · refine ⟨?_, ?_, ?_, ?_, ?_⟩ <;>
      simp [esp32_bt_gatts_ev, hfind, hadv, handlerCalls, responses,
            List.filter_append, filter_isHandlerCall_map_disc,
            filter_isResponse_map_disc, isHandlerCall, isResponse, hrm]
  · refine ⟨?_, ?_, ?_, ?_, ?_⟩ <;>
      simp [esp32_bt_gatts_ev, hfind, hadv, handlerCalls, responses,
            List.filter_append, filter_isHandlerCall_map_disc,
            filter_isResponse_map_disc, isHandlerCall, isResponse, hrm]

/-- C4 witness: tearing down the one live connection of the concrete
connected trace state. -/
theorem disconnect_teardown_witness :
    (esp32_bt_gatts_ev connState hrT (.disconnectEvt 1 7)).1.s_svcs
      = connState.s_svcs ∧
    (esp32_bt_gatts_ev connState hrT (.disconnectEvt 1 7)).1.s_conns
      = remove_connection connState.s_conns 1 7 ∧
    handlerCalls (esp32_bt_gatts_ev connState hrT (.disconnectEvt 1 7)).2
      = connEntry.sessions.map
          (fun sse => Action.callHandler sse.se .disconnect true) ∧
    responses (esp32_bt_gatts_ev connState hrT (.disconnectEvt 1 7)).2 = [] ∧
    find_connection
        (esp32_bt_gatts_ev connState hrT (.disconnectEvt 1 7)).1.s_conns 1 7
      = none :=
  disconnect_teardown connState hrT 1 7 connEntry (by decide) (by decide)

/-- Looking up by UUID after the handle-array overwrite finds the same
(first-matching) entry with its handle array replaced. -/
theorem find_service_set_attr_handles (l : List esp32_bt_service_entry)
    (uuid handles : List Nat) :
    find_service_by_uuid (set_attr_handles l uuid handles) uuid
      = (find_service_by_uuid l uuid).map
          (fun se => { se with attr_handles := handles }) := by
  induction l with
  | nil => simp [set_attr_handles, find_service_by_uuid]
  | cons se rest ih =>
    by_cases h : (se.svc_uuid == uuid) = true
    · simp only [set_attr_handles, if_pos h, find_service_by_uuid]
      simp [List.find?_cons, h]
    · simp only [set_attr_handles, if_neg h, find_service_by_uuid]
      simp only [List.find?_cons]
      simp [h]
      exact ih

/-- Overwriting the first matching entry's handle array twice with the same
array is the same as doing it once. -/
theorem set_attr_handles_idem (l : List esp32_bt_service_entry)
    (uuid handles : List Nat) :
    set_attr_handles (set_attr_handles l uuid handles) uuid handles
      = set_attr_handles l uuid handles := by
  induction l with
  | nil => simp [set_attr_handles]
  | cons se rest ih =>
    by_cases h : (se.svc_uuid == uuid) = true
    · simp [set_attr_handles, h]
    · simp [set_attr_handles, h, ih]

/-- Entries whose UUID differs from the overwritten one are untouched by
the handle-array overwrite. -/
theorem mem_set_attr_handles_of_ne (l : List esp32_bt_service_entry)
    (uuid handles : List Nat) :
    ∀ se ∈ l, se.svc_uuid ≠ uuid → se ∈ set_attr_handles l uuid handles := by
  induction l with
  | nil => simp
  | cons a rest ih =>
    intro se hse hne
    rcases List.mem_cons.mp hse with h | h
    · subst h
      have : (se.svc_uuid == uuid) = false := by simpa using hne
      simp [set_attr_handles, this]
    · by_cases ha : (a.svc_uuid == uuid) = true
      · simp only [set_attr_handles, if_pos ha]
        exact List.mem_cons_of_mem _ h
      · simp only [set_attr_handles, if_neg ha]
        exact List.mem_cons_of_mem _ (ih se h hne)

/-- C6: a table-created event with a failure status, or whose UUID matches
no service (first-match lookup on the first descriptor entry's value), or
whose handle count differs from the matched service's attribute count, is
ignored entirely — state and output are unchanged, so the service remains
un-started and no other service is affected.  Otherwise the matched
service's handler is notified once with a table-ready event and an absent
session, the service's resolved handle array becomes the event's handle
array (so its declaration handle is its first resolved handle), exactly one
start-service call is issued for that first handle, the connection registry
is untouched and every service with a different UUID is untouched. -/
theorem creat_attr_tab_cases (s : State) (hr : Nat → Bool) (status : Nat)
    (uuid handles : List Nat) :
    (status ≠ 0 →
      esp32_bt_gatts_ev s hr (.creatAttrTabEvt status uuid handles)
        = (s, [])) ∧
    (find_service_by_uuid s.s_svcs uuid = none →
      esp32_bt_gatts_ev s hr (.creatAttrTabEvt status uuid handles)
        = (s, [])) ∧
    (∀ se, find_service_by_uuid s.s_svcs uuid = some se →
      se.num_attrs ≠ handles.length →
      esp32_bt_gatts_ev s hr (.creatAttrTabEvt status uuid handles)
        = (s, [])) ∧
    (∀ se, status = 0 → find_service_by_uuid s.s_svcs uuid = some se →
      se.num_attrs = handles.length →
      (esp32_bt_gatts_ev s hr (.creatAttrTabEvt status uuid handles)).2
        = [Action.callHandler se.id .tableReady false,
           Action.startService (handles.headD 0)] ∧
      find_service_by_uuid
          (esp32_bt_gatts_ev s hr
            (.creatAttrTabEvt status uuid handles)).1.s_svcs uuid
        = some { se with attr_handles := handles } ∧
      (esp32_bt_gatts_ev s hr (.creatAttrTabEvt status uuid handles)).1.s_conns
        = s.s_conns ∧
      (∀ se2 ∈ s.s_svcs, se2.svc_uuid ≠ uuid →
        se2 ∈ (esp32_bt_gatts_ev s hr
          (.creatAttrTabEvt status uuid handles)).1.s_svcs)) := by
  refine ⟨?_, ?_, ?_, ?_⟩
  · intro h
    have hb : (status != 0) = true := by simpa using h
    simp [esp32_bt_gatts_ev, hb]
  · intro h
    by_cases hst : status = 0
    · subst hst
      simp [esp32_bt_gatts_ev, h]
    · have hb : (status != 0) = true := by simpa using hst
      simp [esp32_bt_gatts_ev, hb]
  · intro se hse hne
    by_cases hst : status = 0
    · subst hst
      have hb : (se.num_attrs != handles.length) = true := by simpa using hne
      simp [esp32_bt_gatts_ev, hse, hb]
    · have hb : (status != 0) = true := by simpa using hst
      simp [esp32_bt_gatts_ev, hb]
  · intro se hst hse hlen
    subst hst
    have hb : (se.num_attrs != handles.length) = false := by simpa using hlen
    refine ⟨?_, ?_, ?_, ?_⟩
    · simp [esp32_bt_gatts_ev, hse, hb]
    · simp [esp32_bt_gatts_ev, hse, hb, find_service_set_attr_handles]
    · simp [esp32_bt_gatts_ev, hse, hb]
    · intro se2 hm hne
      simp only [esp32_bt_gatts_ev, hse, hb]
      simp only [bne_self_eq_false, Bool.false_eq_true, if_false]
      exact mem_set_attr_handles_of_ne s.s_svcs uuid handles se2 hm hne

/-- C6 witness: at the concrete pre-ready trace state, a failed-status
event is ignored, and a matching well-formed event starts the service on
its first resolved handle. -/
theorem creat_attr_tab_cases_witness :
    esp32_bt_gatts_ev readyState hrT (.creatAttrTabEvt 5 [18] [10, 11])
      = (readyState, []) ∧
    (esp32_bt_gatts_ev readyState hrT (.creatAttrTabEvt 0 [18] [10, 11])).2
      = [Action.callHandler 0 .tableReady false, Action.startService 10] ∧
    find_service_by_uuid
        (esp32_bt_gatts_ev readyState hrT
          (.creatAttrTabEvt 0 [18] [10, 11])).1.s_svcs [18]
      = some { id := 0, svc_uuid := [18], num_attrs := 2, registered := true,
               attr_handles := [10, 11] } :=
  ⟨(creat_attr_tab_cases readyState hrT 5 [18] [10, 11]).1 (by decide),
   ((creat_attr_tab_cases readyState hrT 0 [18] [10, 11]).2.2.2 svcAfterReg
      rfl (by decide) (by decide)).1,
   ((creat_attr_tab_cases readyState hrT 0 [18] [10, 11]).2.2.2 svcAfterReg
      rfl (by decide) (by decide)).2.1⟩

/-- C7 counterexample: replaying the very table-created event that started
the concrete trace service is not guarded against — the dispatcher fully
re-applies it, re-notifying the handler with table-ready and re-issuing the
start-service call. -/
theorem replay_reapplies_table_event :
    Reachable startedState ∧
    (esp32_bt_gatts_ev startedState hrT (.creatAttrTabEvt 0 [18] [10, 11])).2
      = [Action.callHandler 0 .tableReady false, Action.startService 10] :=
  ⟨Reachable.gatts (Reachable.gatts (Reachable.reg Reachable.init [18] 2)
      hrT (.regEvt 1)) hrT (.creatAttrTabEvt 0 [18] [10, 11]),
   by decide⟩

/-- C7 (amended): replaying the same table-created event (same UUID, same
handle array) produces exactly the same result as the first application:
the state is unchanged — in particular the resolved handle array is
overwritten with the identical array, never appended to — but there is no
guard against duplicate application, so the table-ready notification and
the start-service call are emitted again, identically. -/
theorem creat_attr_tab_replay (s : State) (hr : Nat → Bool) (status : Nat)
    (uuid handles : List Nat) :
    esp32_bt_gatts_ev
        (esp32_bt_gatts_ev s hr (.creatAttrTabEvt status uuid handles)).1 hr
        (.creatAttrTabEvt status uuid handles)
      = esp32_bt_gatts_ev s hr (.creatAttrTabEvt status uuid handles) := by
  by_cases hst : status = 0
  · subst hst
    cases hse : find_service_by_uuid s.s_svcs uuid with
    | none => simp [esp32_bt_gatts_ev, hse]
    | some se =>
      by_cases hlen : se.num_attrs = handles.length
      · have hb : (se.num_attrs != handles.length) = false := by simpa using hlen
        simp [esp32_bt_gatts_ev, hse, hb, find_service_set_attr_handles,
              set_attr_handles_idem]
      · have hb : (se.num_attrs != handles.length) = true := by simpa using hlen
        simp [esp32_bt_gatts_ev, hse, hb]
  · have hb : (status != 0) = true := by simpa using hst
    simp [esp32_bt_gatts_ev, hb]

/-- With pairwise-distinct service identities, each service receives
exactly one connect notification in the session-creation loop's output. -/
theorem count_connect_calls (svcs : List esp32_bt_service_entry)
    (hnd : (svcs.map (fun x => x.id)).Nodup)
    (svc : esp32_bt_service_entry) (hm : svc ∈ svcs) :
    (svcs.map (fun x => Action.callHandler x.id .connect true)).count
      (Action.callHandler svc.id .connect true) = 1 := by
  have h1 : svcs.map (fun x => Action.callHandler x.id .connect true)
      = (svcs.map (fun x => x.id)).map
          (fun i => Action.callHandler i .connect true) := by
    rw [List.map_map]
    rfl
  have hinj : Function.Injective
      (fun i => Action.callHandler i .connect true) := by
    intro a b hab
    simpa using hab
  rw [h1]
  exact (List.count_map_of_injective _ _ hinj svc.id).trans
    (List.count_eq_one_of_mem hnd (List.mem_map_of_mem _ hm))

/-- With pairwise-distinct service identities, exactly one session per
service ends up in the freshly built session list. -/
theorem count_sessions (svcs : List esp32_bt_service_entry)
    (hnd : (svcs.map (fun x => x.id)).Nodup)
    (svc : esp32_bt_service_entry) (hm : svc ∈ svcs) :
    ((svcs.map (fun x =>
        ({ se := x.id } : esp32_bt_session_entry))).reverse).count
      ({ se := svc.id } : esp32_bt_session_entry) = 1 := by
  rw [List.count_reverse]
  have h1 : svcs.map (fun x => ({ se := x.id } : esp32_bt_session_entry))
      = (svcs.map (fun x => x.id)).map
          (fun i => ({ se := i } : esp32_bt_session_entry)) := by
    rw [List.map_map]
    rfl
  have hinj : Function.Injective
      (fun i => ({ se := i } : esp32_bt_session_entry)) := by
    intro a b hab
    simpa using hab
  rw [h1]
  exact (List.count_map_of_injective _ _ hinj svc.id).trans
    (List.count_eq_one_of_mem hnd (List.mem_map_of_mem _ hm))

/-- C1: a connect event (peer connected) builds one fresh connection with
the default MTU and the peer address, holding exactly one session bound to
each service present in the registry at that moment (and nothing else: the
session list is the reversed service list), delivers exactly one connect
notification to each such service's handler with the handler's return value
ignored (the result does not depend on the oracle), and inserts the
connection — already carrying its complete session list — into the
connection registry as the new head, the rest of the registry and the
service registry being untouched. -/
theorem connect_creates_sessions (s : State) (hr hr2 : Nat → Bool)
    (gatt_if conn_id : Nat) (addr : List Nat)
    (hnd : (s.s_svcs.map (fun svc => svc.id)).Nodup) :
    ∃ ce,
      (esp32_bt_gatts_ev s hr (.connectEvt gatt_if conn_id addr true)).1.s_conns
        = ce :: s.s_conns ∧
      (esp32_bt_gatts_ev s hr (.connectEvt gatt_if conn_id addr true)).1.s_svcs
        = s.s_svcs ∧
      ce.sessions.map (fun sse => sse.se)
        = (s.s_svcs.map (fun svc => svc.id)).reverse ∧
      (∀ svc ∈ s.s_svcs,
        ce.sessions.count ({ se := svc.id } : esp32_bt_session_entry) = 1) ∧
      (∀ svc ∈ s.s_svcs,
        (esp32_bt_gatts_ev s hr (.connectEvt gatt_if conn_id addr true)).2.count
          (Action.callHandler svc.id .connect true) = 1) ∧
      ce.gatt_if = gatt_if ∧ ce.conn_id = conn_id ∧
      ce.mtu = ESP_GATT_DEF_BLE_MTU_SIZE ∧ ce.peer_addr = addr ∧
      esp32_bt_gatts_ev s hr2 (.connectEvt gatt_if conn_id addr true)
        = esp32_bt_gatts_ev s hr (.connectEvt gatt_if conn_id addr true) := by
  refine ⟨{ gatt_if := gatt_if, conn_id := conn_id,
            mtu := ESP_GATT_DEF_BLE_MTU_SIZE, peer_addr := addr,
            sessions := (s.s_svcs.map (fun svc =>
              ({ se := svc.id } : esp32_bt_session_entry))).reverse },
          ?_, ?_, ?_, ?_, ?_, rfl, rfl, rfl, rfl, ?_⟩
  · simp [esp32_bt_gatts_ev, create_sessions_eq]
  · simp [esp32_bt_gatts_ev]
  · simp [List.map_reverse, List.map_map, Function.comp]
  · intro svc hm
    exact count_sessions s.s_svcs hnd svc hm
  · intro svc hm
    have hc := count_connect_calls s.s_svcs hnd svc hm
    by_cases hadv : s.adv_enable <;>
      simp [esp32_bt_gatts_ev, create_sessions_eq, hadv, List.count_cons,
            List.count_append, hc]
  · rfl

/-- C1 witness: connecting to the concrete two-service state. -/
theorem connect_creates_sessions_witness :
    ∃ ce,
      (esp32_bt_gatts_ev twoSvcState hrT
          (.connectEvt 1 7 [1, 2, 3, 4, 5, 6] true)).1.s_conns
        = ce :: twoSvcState.s_conns ∧
      (esp32_bt_gatts_ev twoSvcState hrT
          (.connectEvt 1 7 [1, 2, 3, 4, 5, 6] true)).1.s_svcs
        = twoSvcState.s_svcs ∧
      ce.sessions.map (fun sse => sse.se)
        = (twoSvcState.s_svcs.map (fun svc => svc.id)).reverse ∧
      (∀ svc ∈ twoSvcState.s_svcs,
        ce.sessions.count ({ se := svc.id } : esp32_bt_session_entry) = 1) ∧
      (∀ svc ∈ twoSvcState.s_svcs,
        (esp32_bt_gatts_ev twoSvcState hrT
            (.connectEvt 1 7 [1, 2, 3, 4, 5, 6] true)).2.count
          (Action.callHandler svc.id .connect true) = 1) ∧
      ce.gatt_if = 1 ∧ ce.conn_id = 7 ∧
      ce.mtu = ESP_GATT_DEF_BLE_MTU_SIZE ∧ ce.peer_addr = [1, 2, 3, 4, 5, 6] ∧
      esp32_bt_gatts_ev twoSvcState hrF (.connectEvt 1 7 [1, 2, 3, 4, 5, 6] true)
        = esp32_bt_gatts_ev twoSvcState hrT
            (.connectEvt 1 7 [1, 2, 3, 4, 5, 6] true) :=
  connect_creates_sessions twoSvcState hrT hrF 1 7 [1, 2, 3, 4, 5, 6]
    (by decide)

/-- Both GAP event cases leave the state untouched. -/
theorem gap_ev_state (s : State) (ev : GapEv) :
    (esp32_bt_gap_ev s ev).1 = s := by
  cases ev <;> rfl

/-- The table-request loop never touches a service's handle array or
attribute count. -/
theorem register_services_loop_handles (l : List esp32_bt_service_entry) :
    ∀ se0 ∈ (register_services_loop l).1,
      ∃ se1 ∈ l, se0.attr_handles = se1.attr_handles ∧
        se0.num_attrs = se1.num_attrs := by
  induction l with
  | nil => simp [register_services_loop]
  | cons a rest ih =>
    intro se0 h
    simp only [register_services_loop] at h
    by_cases ha : a.registered
    · rw [if_pos ha] at h
      rcases List.mem_cons.mp h with h | h
      · exact ⟨a, List.mem_cons_self a rest, by rw [h], by rw [h]⟩
      · obtain ⟨se1, hm, h1, h2⟩ := ih se0 h
        exact ⟨se1, List.mem_cons_of_mem _ hm, h1, h2⟩
    · rw [if_neg ha] at h
      rcases List.mem_cons.mp h with h | h
      · exact ⟨a, List.mem_cons_self a rest, by rw [h], by rw [h]⟩
      · obtain ⟨se1, hm, h1, h2⟩ := ih se0 h
        exact ⟨se1, List.mem_cons_of_mem _ hm, h1, h2⟩

/-- Members of the handle-array overwrite are either old members or the
first UUID match with its handle array replaced. -/
theorem mem_set_attr_handles (l : List esp32_bt_service_entry)
    (uuid handles : List Nat) :
    ∀ se0 ∈ set_attr_handles l uuid handles,
      se0 ∈ l ∨ ∃ se1, find_service_by_uuid l uuid = some se1 ∧
        se0 = { se1 with attr_handles := handles } := by
  induction l with
  | nil => simp [set_attr_handles]
  | cons a rest ih =>
    intro se0 h
    by_cases ha : (a.svc_uuid == uuid) = true
    · simp only [set_attr_handles, if_pos ha] at h
      rcases List.mem_cons.mp h with h | h
      · right
        refine ⟨a, ?_, h⟩
        simp [find_service_by_uuid, List.find?_cons, ha]
      · left
        exact List.mem_cons_of_mem _ h
    · simp only [set_attr_handles, if_neg ha] at h
      rcases List.mem_cons.mp h with h | h
      · left
        exact h ▸ List.mem_cons_self a rest
      · rcases ih se0 h with h2 | ⟨se1, hf, he⟩
        · left
          exact List.mem_cons_of_mem _ h2
        · right
          refine ⟨se1, ?_, he⟩
          have hstep : find_service_by_uuid (a :: rest) uuid
              = find_service_by_uuid rest uuid := by
            simp [find_service_by_uuid, List.find?_cons, ha]
          rw [hstep]
          exact hf

/-- One GATTS dispatcher step preserves the handle-array length invariant:
every service's resolved handle array is empty or has exactly the
service's attribute count. -/
theorem gatts_ev_handles_inv (s : State) (hr : Nat → Bool) (ev : GattsEv)
    (hinv : ∀ svc ∈ s.s_svcs,
      svc.attr_handles = [] ∨ svc.attr_handles.length = svc.num_attrs) :
    ∀ svc ∈ (esp32_bt_gatts_ev s hr ev).1.s_svcs,
      svc.attr_handles = [] ∨ svc.attr_handles.length = svc.num_attrs := by
  cases ev with
  | regEvt g =>
    intro svc h
    simp [esp32_bt_gatts_ev, esp32_bt_register_services] at h
    obtain ⟨se1, hm, h1, h2⟩ := register_services_loop_handles s.s_svcs svc h
    rw [h1, h2]
    exact hinv se1 hm
  | readEvt g c t hd b =>
    intro svc h
    simp only [esp32_bt_gatts_ev] at h
    split at h
    · exact hinv svc h
    · split at h
      · exact hinv svc h
      · exact hinv svc h
  | writeEvt g c t hd b =>
    intro svc h
    simp only [esp32_bt_gatts_ev] at h
    split at h
    · exact hinv svc h
    · exact hinv svc h
  | mtuEvt g c m =>
    intro svc h
    simp only [esp32_bt_gatts_ev] at h
    exact hinv svc h
  | connectEvt g c a b =>
    intro svc h
    simp only [esp32_bt_gatts_ev] at h
    split at h
    · exact hinv svc h
    · exact hinv svc h
  | disconnectEvt g c =>
    intro svc h
    simp only [esp32_bt_gatts_ev] at h
    split at h
    · exact hinv svc h
    · exact hinv svc h
  | creatAttrTabEvt st u hs =>
    intro svc h
    by_cases hst : st = 0
    · subst hst
      cases hse : find_service_by_uuid s.s_svcs u with
      | none =>
        simp [esp32_bt_gatts_ev, hse] at h
        exact hinv svc h
      | some se =>
        by_cases hlen : se.num_attrs = hs.length
        · have hb : (se.num_attrs != hs.length) = false := by simpa using hlen
          simp [esp32_bt_gatts_ev, hse, hb] at h
          rcases mem_set_attr_handles s.s_svcs u hs svc h with h2 | ⟨se1, hf, he⟩
          · exact hinv svc h2
          · rw [hse] at hf
            have h3 := Option.some.inj hf
            subst h3
            subst he
            right
            simp [hlen]
        · have hb : (se.num_attrs != hs.length) = true := by simpa using hlen
          simp [esp32_bt_gatts_ev, hse, hb] at h
          exact hinv svc h
    · have hb : (st != 0) = true := by simpa using hst
      simp [esp32_bt_gatts_ev, hb] at h
      exact hinv svc h
  | otherEvt =>
    intro svc h
    simp only [esp32_bt_gatts_ev] at h
    exact hinv svc h

/-- Registering a service preserves the handle-array length invariant: the
new entry starts with an empty handle array. -/
theorem register_service_handles_inv (s : State) (u : List Nat) (n : Nat)
    (hinv : ∀ svc ∈ s.s_svcs,
      svc.attr_handles = [] ∨ svc.attr_handles.length = svc.num_attrs) :
    ∀ svc ∈ (mgos_bt_gatts_register_service s u n).1.s_svcs,
      svc.attr_handles = [] ∨ svc.attr_handles.length = svc.num_attrs := by
  intro svc h
  simp only [mgos_bt_gatts_register_service, esp32_bt_register_services] at h
  split at h
  · dsimp only at h
    obtain ⟨se1, hm, h1, h2⟩ := register_services_loop_handles _ svc h
    rcases List.mem_cons.mp hm with h3 | h3
    · subst h3
      left
      rw [h1]
    · rw [h1, h2]
      exact hinv se1 h3
  · dsimp only at h
    rcases List.mem_cons.mp h with h3 | h3
    · subst h3
      left
      rfl
    · exact hinv svc h3

/-- C8 (amended): in every reachable state, every service's resolved
attribute-handle array is either empty or has length equal to the
service's attribute count.  The `registered` flag marks that table
creation has been requested, not that handles are resolved, so a
registered service's array may still be empty — until (and unless) a
matching table-created event with exactly `num_attrs` handles is applied,
which is the only transition that fills the array. -/
theorem attr_handles_length_inv (s : State) (h : Reachable s) :
    ∀ svc ∈ s.s_svcs,
      svc.attr_handles = [] ∨ svc.attr_handles.length = svc.num_attrs := by
  induction h with
  | init =>
    intro svc h0
    simp [initState] at h0
  | gatts hprev hr ev ih => exact gatts_ev_handles_inv _ hr ev ih
  | gap hprev ev ih =>
    rw [gap_ev_state]
    exact ih
  | reg hprev u n ih => exact register_service_handles_inv _ u n ih
  | setAdv hprev b ih => exact ih

/-- C8 counterexample: in the concrete reachable state reached by
registering a 2-attribute service and then processing the stack's
registration-complete event, the service is registered yet its resolved
handle array is empty — refuting the claim that a registered service's
handle list always has length equal to its attribute count. -/
theorem registered_service_with_empty_handles :
    Reachable readyState ∧
    svcAfterReg ∈ readyState.s_svcs ∧
    svcAfterReg.registered = true ∧
    svcAfterReg.attr_handles.length ≠ svcAfterReg.num_attrs ∧
    svcAfterReg.attr_handles = [] :=
  ⟨Reachable.gatts (Reachable.reg Reachable.init [18] 2) hrT (.regEvt 1),
   by decide, rfl, by decide, rfl⟩

/-- C8 witness: the amended invariant instantiated at the concrete
reachable state and its service entry. -/
theorem attr_handles_length_inv_witness :
    svcAfterReg.attr_handles = []
      ∨ svcAfterReg.attr_handles.length = svcAfterReg.num_attrs :=
  attr_handles_length_inv readyState
    (Reachable.gatts (Reachable.reg Reachable.init [18] 2) hrT (.regEvt 1))
    svcAfterReg (by decide)

/-- C2 witness: a handled read on the concrete connected state produces no
default reply and at least one handler call. -/
theorem read_default_reply_witness :
    (esp32_bt_gatts_ev connState hrT (.readEvt 1 7 99 10 true)).1
      = connState ∧
    responses (esp32_bt_gatts_ev connState hrT (.readEvt 1 7 99 10 true)).2
      = [] ∧
    handlerCalls (esp32_bt_gatts_ev connState hrT (.readEvt 1 7 99 10 true)).2
      ≠ [] := by
  have h := read_default_reply connState hrT 1 7 99 10
  have ht : rwTarget connState 1 7 10 = some 0 := by decide
  rw [ht] at h
  exact ⟨h.1, h.2.1, h.2.2⟩

/-- C3 witness: an accepted write on the concrete connected state draws
exactly one "ok" reply. -/
theorem write_always_replies_witness :
    esp32_bt_gatts_ev connState hrT (.writeEvt 1 7 99 10 false)
      = (connState, []) ∧
    (esp32_bt_gatts_ev connState hrT (.writeEvt 1 7 99 10 true)).1
      = connState ∧
    responses (esp32_bt_gatts_ev connState hrT (.writeEvt 1 7 99 10 true)).2
      = [Action.sendResponse 1 7 99 ESP_GATT_OK] ∧
    handlerCalls (esp32_bt_gatts_ev connState hrT (.writeEvt 1 7 99 10 true)).2
      ≠ [] := by
  have h := write_always_replies connState hrT 1 7 99 10
  have ht : rwTarget connState 1 7 10 = some 0 := by decide
  rw [ht] at h
  exact ⟨h.1, h.2.1, h.2.2.1, h.2.2.2⟩

/-- C9 witness: the amended advertising property at the concrete
flag-enabled state. -/
theorem adv_restart_on_disconnect_only_witness :
    (Action.startAdvertising ∈
        (esp32_bt_gatts_ev advOnState hrT (.disconnectEvt 1 7)).2
      ↔ advOnState.adv_enable = true) ∧
    esp32_bt_gap_ev advOnState .advStopComplete = (advOnState, []) :=
  adv_restart_on_disconnect_only advOnState hrT 1 7

end ESP32BT
